import Mathlib

/-!
Verification of `src/routing/uid2gateway.py` from gofaxip-bridge.

The script resolves a phone number to a gateway identifier by a linear
scan over a two-column CSV file.  We embed the program shallowly:

* a `FileState` is what the lookup observes of the filesystem: either
  the open fails (`unreadable msg`, the exception's message) or the CSV
  reader yields a list of rows, each row a list of string fields;
* `scanRows` embeds the `for row in reader` loop body: `row[1]` on a row
  with fewer than two fields raises `IndexError` (message
  `list index out of range`), modelled as `Except.error`;
* `find_gateway` wraps the scan in the `try/except` and records its
  observable side effects as a trace of `Effect`s (one read-only open,
  and on failure one line to stderr);
* `main` embeds the CLI entry point; `argv` models `sys.argv[1:]`, so
  `len(sys.argv) != 2` becomes `argv.length ≠ 1`.  Python's
  `if gateway:` is falsy for both `None` and the empty string.
-/

namespace GofaxipBridge

/-- Observable side effects of one invocation of the lookup.  `openRead`
is the read-only `open(csv_file, newline='')`; `writeStderrLine` is one
`print(..., file=sys.stderr)`; `openWrite` is a file open for writing,
which the source never performs (proved below). -/
inductive Effect where
  | openRead (path : String)
  | writeStderrLine (line : String)
  | openWrite (path : String)
  deriving DecidableEq

/-- The state of the record file as the lookup observes it: the open
raises with some message, or the CSV reader yields this list of rows. -/
inductive FileState where
  | unreadable (msg : String)
  | rows (rs : List (List String))
  deriving DecidableEq

/-- Embedding of the scan loop of `find_gateway`:
`for row in reader: if row[1] == phone_number: return row[0]`.
A row with fewer than two fields makes `row[1]` raise `IndexError`,
whose message is `list index out of range`. -/
def scanRows (phone_number : String) : List (List String) → Except String (Option String)
  | [] => Except.ok none
  | row :: rest =>
    match row with
    | f0 :: f1 :: _ =>
        if f1 = phone_number then Except.ok (some f0) else scanRows phone_number rest
    | _ => Except.error "list index out of range"

/-- The hardcoded default CSV path of `find_gateway`. -/
def default_csv_file : String := "/opt/gofaxip-process/gateway_phone.csv"

/-- Result of `find_gateway`: the returned value (`None` or a gateway
string) together with the trace of observable side effects. -/
structure FindOutcome where
  result : Option String
  trace : List Effect
  deriving DecidableEq

/-- Embedding of `find_gateway(phone_number, csv_file)`: open the file,
scan the rows; any exception (open failure or `IndexError` in the scan)
is caught, one message is printed to stderr, and `None` is returned. -/
def find_gateway (phone_number : String) (csv_file : String) (file : FileState) :
    FindOutcome :=
  match file with
  | FileState.unreadable msg =>
      ⟨none, [Effect.openRead csv_file,
              Effect.writeStderrLine ("Error reading CSV file: " ++ msg)]⟩
  | FileState.rows rs =>
      match scanRows phone_number rs with
      | Except.ok r => ⟨r, [Effect.openRead csv_file]⟩
      | Except.error msg =>
          ⟨none, [Effect.openRead csv_file,
                  Effect.writeStderrLine ("Error reading CSV file: " ++ msg)]⟩

/-- The lines written to stderr within a trace. -/
def stderrOf (tr : List Effect) : List String :=
  tr.filterMap fun e =>
    match e with
    | Effect.writeStderrLine s => some s
    | _ => none

/-- Observable outcome of one run of the CLI entry point. -/
structure CLIOutcome where
  stdout : List String
  stderr : List String
  exitCode : Nat
  deriving DecidableEq

/-- Embedding of `main()`.  `argv` models `sys.argv[1:]`.  With the wrong
argument count the usage line goes to stderr and the process exits 1;
otherwise the lookup runs on the default path and `print(gateway)` runs
only when `gateway` is truthy (not `None` and not the empty string). -/
def main (argv : List String) (file : FileState) : CLIOutcome :=
  if argv.length ≠ 1 then
    ⟨[], ["Usage: uid2gateway.py <phone_number>"], 1⟩
  else
    let phone_number := argv.headD ""
    let gateway := find_gateway phone_number default_csv_file file
    ⟨(match gateway.result with
      | some g => if g = "" then [] else [g]
      | none => []),
     stderrOf gateway.trace, 0⟩

/-- A failed open or a failed read: the situations the `except` clause of
`find_gateway` catches. -/
def readFailure (phone_number : String) (file : FileState) : Prop :=
  (∃ msg, file = FileState.unreadable msg) ∨
  (∃ rs msg, file = FileState.rows rs ∧ scanRows phone_number rs = Except.error msg)

/-- On rows that all have at least two fields, the scan never raises and
returns the head of the first row whose second field is the phone number. -/
lemma scanRows_eq_find? (phone : String) (rs : List (List String))
    (hlen : ∀ r ∈ rs, 2 ≤ r.length) :
    scanRows phone rs =
      Except.ok ((rs.find? fun r => r.get? 1 == some phone).bind List.head?) := by
  induction rs with
  | nil => rfl
  | cons r rest ih =>
    have hr : 2 ≤ r.length := hlen r (List.mem_cons_self _ _)
    match r, hr with
    | f0 :: f1 :: t, _ =>
      have hrest : ∀ r ∈ rest, 2 ≤ r.length :=
        fun r hmem => hlen r (List.mem_cons_of_mem _ hmem)
      by_cases h : f1 = phone
      · have hp : ((f0 :: f1 :: t).get? 1 == some phone) = true := by simp [h]
        simp [scanRows, List.find?_cons, hp, h]
      · have hp : ((f0 :: f1 :: t).get? 1 == some phone) = false := by simp [h]
        simp [scanRows, List.find?_cons, hp, h, ih hrest]

/-- Once the scan has found a gateway, appending further rows to the file
does not change its result. -/
lemma scanRows_append_of_some (phone g : String) (rs extra : List (List String))
    (h : scanRows phone rs = Except.ok (some g)) :
    scanRows phone (rs ++ extra) = Except.ok (some g) := by
  induction rs with
  | nil => simp [scanRows] at h
  | cons r rest ih =>
    rcases r with _ | ⟨f0, _ | ⟨f1, t⟩⟩
    · simp [scanRows] at h
    · simp [scanRows] at h
    · by_cases hf : f1 = phone
      · simp only [scanRows, hf, if_pos rfl] at h
        simpa [scanRows, hf] using h
      · simp only [scanRows, if_neg hf] at h
        simpa [scanRows, hf] using ih h

/-- A successful scan returns the first field of some row of the file. -/
lemma scanRows_some_head (phone g : String) (rs : List (List String))
    (h : scanRows phone rs = Except.ok (some g)) :
    ∃ r ∈ rs, r.head? = some g := by
  induction rs with
  | nil => simp [scanRows] at h
  | cons r rest ih =>
    rcases r with _ | ⟨f0, _ | ⟨f1, t⟩⟩
    · simp [scanRows] at h
    · simp [scanRows] at h
    · by_cases hf : f1 = phone
      · simp [scanRows, hf] at h
        exact ⟨f0 :: f1 :: t, List.mem_cons_self _ _, by simp [h]⟩
      · simp only [scanRows, if_neg hf] at h
        obtain ⟨r, hmem, hh⟩ := ih h
        exact ⟨r, List.mem_cons_of_mem _ hmem, hh⟩

/-- If a row with fewer than two fields appears before any matching row,
the scan raises `IndexError` at or before that row. -/
lemma scanRows_error_of_short (phone : String) (pre : List (List String))
    (bad : List String) (rest : List (List String))
    (hbad : bad.length < 2)
    (hpre : ∀ r ∈ pre, r.get? 1 ≠ some phone) :
    scanRows phone (pre ++ bad :: rest) = Except.error "list index out of range" := by
  induction pre with
  | nil =>
    rcases bad with _ | ⟨f0, _ | ⟨f1, t⟩⟩
    · simp [scanRows]
    · simp [scanRows]
    · exact absurd hbad (by simp [List.length_cons])
  | cons r pre ih =>
    rcases r with _ | ⟨f0, _ | ⟨f1, t⟩⟩
    · simp [scanRows]
    · simp [scanRows]
    · have hne : f1 ≠ phone := by
        have := hpre (f0 :: f1 :: t) (List.mem_cons_self _ _)
        simpa using this
      simpa [scanRows, hne] using ih (fun r hmem => hpre r (List.mem_cons_of_mem _ hmem))

/-- C1: on a file whose rows all have at least two fields, if some row's
second field equals the phone number, `find_gateway` returns the first
field of the first such row in file order (the `find?` characterisation),
and rows appended after the file never influence the result. -/
theorem find_gateway_first_match (phone csvf : String) (rs : List (List String))
    (hlen : ∀ r ∈ rs, 2 ≤ r.length)
    (hex : ∃ r ∈ rs, r.get? 1 = some phone) :
    (find_gateway phone csvf (FileState.rows rs)).result
        = (rs.find? fun r => r.get? 1 == some phone).bind List.head?
    ∧ ∀ extra : List (List String),
        (find_gateway phone csvf (FileState.rows (rs ++ extra))).result
          = (find_gateway phone csvf (FileState.rows rs)).result := by
  have hscan := scanRows_eq_find? phone rs hlen
  have hfind : (rs.find? fun r => r.get? 1 == some phone) ≠ none := by
    intro hnone
    rw [List.find?_eq_none] at hnone
    obtain ⟨r, hmem, hr⟩ := hex
    have hr1 : r[1]? = some phone := by simpa [List.get?_eq_getElem?] using hr
    exact hnone r hmem (by simp [hr1])
  refine ⟨by simp [find_gateway, hscan], ?_⟩
  intro extra
  obtain ⟨r, hfr⟩ := Option.ne_none_iff_exists'.mp hfind
  have hmem : r ∈ rs := List.mem_of_find?_eq_some hfr
  have hr2 : 2 ≤ r.length := hlen r hmem
  match r, hr2, hfr with
  | f0 :: f1 :: t, _, hfr =>
    have hsome : scanRows phone rs = Except.ok (some f0) := by
      rw [hscan, hfr]; rfl
    have happ := scanRows_append_of_some phone f0 rs extra hsome
    simp [find_gateway, hsome, happ]

/-- Witness for C1 at the spec's duplicate-number example: the first of
two rows with the same phone number wins. -/
theorem find_gateway_first_match_witness :
    (find_gateway "5551234" default_csv_file
        (FileState.rows [["GW1", "5551234"], ["GW2", "5551234"]])).result
      = some "GW1" := by
  have h := find_gateway_first_match "5551234" default_csv_file
      [["GW1", "5551234"], ["GW2", "5551234"]] (by decide) (by decide)
  rw [h.1]
  rfl

/-- C2: any failure opening or reading the file (an unreadable file, or a
malformed row making `row[1]` raise) is caught: `find_gateway` returns
`None`, writes exactly one line to stderr, and the CLI run still has exit
status 0 with empty stdout. -/
theorem find_gateway_failure (phone csvf : String) (file : FileState)
    (h : readFailure phone file) :
    (find_gateway phone csvf file).result = none
    ∧ (stderrOf (find_gateway phone csvf file).trace).length = 1
    ∧ (main [phone] file).exitCode = 0
    ∧ (main [phone] file).stdout = [] := by
  rcases h with ⟨msg, rfl⟩ | ⟨rs, msg, rfl, hscan⟩
  · refine ⟨rfl, rfl, ?_, ?_⟩ <;> simp [main, find_gateway, stderrOf]
  · refine ⟨?_, ?_, ?_, ?_⟩ <;> simp [main, find_gateway, hscan, stderrOf]

/-- Witness for C2 at a missing file. -/
theorem find_gateway_failure_witness :
    (find_gateway "5551234" default_csv_file
        (FileState.unreadable "No such file or directory")).result = none
    ∧ (stderrOf (find_gateway "5551234" default_csv_file
        (FileState.unreadable "No such file or directory")).trace).length = 1
    ∧ (main ["5551234"] (FileState.unreadable "No such file or directory")).exitCode = 0
    ∧ (main ["5551234"] (FileState.unreadable "No such file or directory")).stdout = [] :=
  find_gateway_failure "5551234" default_csv_file
    (FileState.unreadable "No such file or directory") (Or.inl ⟨_, rfl⟩)

/-- C3: on a file whose rows all have at least two fields and none of
whose rows matches the phone number (the empty file included),
`find_gateway` returns `None` and the CLI prints nothing anywhere and
exits 0. -/
theorem find_gateway_no_match (phone csvf : String) (rs : List (List String))
    (hlen : ∀ r ∈ rs, 2 ≤ r.length)
    (hno : ∀ r ∈ rs, r.get? 1 ≠ some phone) :
    (find_gateway phone csvf (FileState.rows rs)).result = none
    ∧ main [phone] (FileState.rows rs) = ⟨[], [], 0⟩ := by
  have hfind : (rs.find? fun r => r.get? 1 == some phone) = none := by
    rw [List.find?_eq_none]
    intro r hmem
    simpa using hno r hmem
  have hscan := scanRows_eq_find? phone rs hlen
  rw [hfind] at hscan
  exact ⟨by simp [find_gateway, hscan], by simp [main, find_gateway, hscan, stderrOf]⟩

/-- Witness for C3 at the empty file. -/
theorem find_gateway_no_match_witness :
    (find_gateway "5551234" default_csv_file (FileState.rows [])).result = none
    ∧ main ["5551234"] (FileState.rows []) = ⟨[], [], 0⟩ :=
  find_gateway_no_match "5551234" default_csv_file [] (by simp) (by simp)

/-- C4: with an argument count different from one, the CLI prints the
usage line to stderr and exits 1; the output is the same for every file
state, so no lookup is performed. -/
theorem main_usage (argv : List String) (file : FileState)
    (h : argv.length ≠ 1) :
    main argv file = ⟨[], ["Usage: uid2gateway.py <phone_number>"], 1⟩ := by
  simp [main, h]

/-- Witness for C4 at zero arguments. -/
theorem main_usage_witness :
    main [] (FileState.rows []) = ⟨[], ["Usage: uid2gateway.py <phone_number>"], 1⟩ :=
  main_usage [] (FileState.rows []) (by decide)

/-- Counterexample to C5 as stated: on the file with the single row
`("", "5551234")`, `find_gateway` returns a matching gateway identifier
(the empty string), yet the CLI prints nothing to stdout, because
`if gateway:` is falsy for the empty string. -/
theorem main_match_print_counterexample :
    (find_gateway "5551234" default_csv_file
        (FileState.rows [["", "5551234"]])).result = some ""
    ∧ (main ["5551234"] (FileState.rows [["", "5551234"]])).stdout = [] := by
  exact ⟨rfl, rfl⟩

/-- C5 (amended): for every invocation in which `find_gateway` returns a
nonempty matching gateway identifier, the CLI prints that identifier to
stdout (and nothing else) and the process exits 0. -/
theorem main_match_print (phone g : String) (file : FileState)
    (hg : (find_gateway phone default_csv_file file).result = some g)
    (hne : g ≠ "") :
    (main [phone] file).stdout = [g] ∧ (main [phone] file).exitCode = 0 := by
  exact ⟨by simp [main, hg, hne], by simp [main]⟩

/-- Witness for C5 at the spec's basic example. -/
theorem main_match_print_witness :
    (main ["5551234"] (FileState.rows [["GW1", "5551234"]])).stdout = ["GW1"]
    ∧ (main ["5551234"] (FileState.rows [["GW1", "5551234"]])).exitCode = 0 :=
  main_match_print "5551234" "GW1" (FileState.rows [["GW1", "5551234"]])
    (by rfl) (by decide)

/-- C6: the effect trace of every invocation of `find_gateway` is exactly
one read-only open, followed on failure by exactly one stderr line; in
particular no open-for-write of the record file (or any file) ever
occurs, so no persistent state is modified. -/
theorem find_gateway_effects (phone csvf : String) (file : FileState) :
    ((find_gateway phone csvf file).trace = [Effect.openRead csvf]
      ∨ ∃ msg, (find_gateway phone csvf file).trace
          = [Effect.openRead csvf,
             Effect.writeStderrLine ("Error reading CSV file: " ++ msg)])
    ∧ ∀ p, Effect.openWrite p ∉ (find_gateway phone csvf file).trace := by
  cases file with
  | unreadable msg =>
    refine ⟨Or.inr ⟨msg, rfl⟩, ?_⟩
    intro p hp
    simp [find_gateway] at hp
  | rows rs =>
    cases h : scanRows phone rs with
    | ok r =>
      refine ⟨Or.inl ?_, ?_⟩ <;> simp [find_gateway, h]
    | error msg =>
      refine ⟨Or.inr ⟨msg, ?_⟩, ?_⟩ <;> simp [find_gateway, h]

/-- C7: on a well-formed file whose first matching row has an empty first
field, `find_gateway` returns the empty string, yet the CLI prints
nothing and exits 0 — the run is indistinguishable from a run on an
empty file (no match at all). -/
theorem main_empty_gateway (phone : String) (rs : List (List String))
    (hlen : ∀ r ∈ rs, 2 ≤ r.length)
    (hfirst : (rs.find? fun r => r.get? 1 == some phone).bind List.head? = some "") :
    (find_gateway phone default_csv_file (FileState.rows rs)).result = some ""
    ∧ main [phone] (FileState.rows rs) = ⟨[], [], 0⟩
    ∧ main [phone] (FileState.rows rs) = main [phone] (FileState.rows []) := by
  have hscan := scanRows_eq_find? phone rs hlen
  rw [hfirst] at hscan
  refine ⟨?_, ?_, ?_⟩ <;> simp [main, find_gateway, hscan, stderrOf, scanRows]

/-- Witness for C7 at the file with the single row `("", "5551234")`. -/
theorem main_empty_gateway_witness :
    (find_gateway "5551234" default_csv_file
        (FileState.rows [["", "5551234"]])).result = some ""
    ∧ main ["5551234"] (FileState.rows [["", "5551234"]]) = ⟨[], [], 0⟩
    ∧ main ["5551234"] (FileState.rows [["", "5551234"]])
        = main ["5551234"] (FileState.rows []) :=
  main_empty_gateway "5551234" [["", "5551234"]] (by decide) (by rfl)

/-- C8: a row with fewer than two fields placed before the first matching
row makes the scan raise `IndexError`, so `find_gateway` returns `None`
even though a matching row exists further down the file. -/
theorem find_gateway_short_row_aborts (phone csvf : String)
    (pre : List (List String)) (bad : List String) (rest : List (List String))
    (hbad : bad.length < 2)
    (hpre : ∀ r ∈ pre, r.get? 1 ≠ some phone)
    (_hmatch : ∃ r ∈ rest, r.get? 1 = some phone) :
    (find_gateway phone csvf (FileState.rows (pre ++ bad :: rest))).result = none := by
  have h := scanRows_error_of_short phone pre bad rest hbad hpre
  simp [find_gateway, h]

/-- Witness for C8: a one-field row ahead of a matching row yields `None`. -/
theorem find_gateway_short_row_aborts_witness :
    (find_gateway "5551234" default_csv_file
        (FileState.rows ([] ++ ["GW0"] :: [["GW1", "5551234"]]))).result = none :=
  find_gateway_short_row_aborts "5551234" default_csv_file [] ["GW0"]
    [["GW1", "5551234"]] (by decide) (by simp)
    ⟨["GW1", "5551234"], by simp, by rfl⟩

/-- C9: `find_gateway` is total at its interface: on every phone number
and file state it returns either `None` or the first field of some row of
the file, and (being a total function into `FindOutcome`) it propagates
no exception. -/
theorem find_gateway_total (phone csvf : String) (file : FileState) :
    (find_gateway phone csvf file).result = none
    ∨ ∃ rs r g, file = FileState.rows rs ∧ r ∈ rs ∧ r.head? = some g
        ∧ (find_gateway phone csvf file).result = some g := by
  cases file with
  | unreadable msg => exact Or.inl rfl
  | rows rs =>
    cases h : scanRows phone rs with
    | error msg => exact Or.inl (by simp [find_gateway, h])
    | ok r =>
      cases r with
      | none => exact Or.inl (by simp [find_gateway, h])
      | some g =>
        obtain ⟨row, hmem, hhead⟩ := scanRows_some_head phone g rs h
        exact Or.inr ⟨rs, row, g, rfl, hmem, hhead, by simp [find_gateway, h]⟩

end GofaxipBridge
